import Mathlib

/-!
Shallow embedding of `src/proto/streams/state.rs` from the `h2` crate:
the per-stream HTTP/2 state machine (`State` / `Inner` / `OpenPeer` /
`Cause` / `Peer`) together with its transition operations and queries.

Rust's `&mut self` methods returning `Result` are embedded as pure
functions `Inner → result × Inner`: the returned `Inner` is the value of
`self.inner` after the call (an early `return Err` leaves it unchanged,
exactly as in the source).  `send_close`, which panics on an unexpected
shape, is embedded as `Inner → Option Inner` with `none` for the panic
branch.  Queries taking `&self` are pure functions out of `Inner`.
-/

namespace H2

/-- HTTP/2 stream error codes: `frame::Reason` is a newtype over `u32`;
we model the code as a `Nat` (its numeric value on the wire). -/
structure Reason where
  code : Nat
deriving DecidableEq, Repr

/-- `Reason::PROTOCOL_ERROR` (wire code 1). -/
def Reason.PROTOCOL_ERROR : Reason := ⟨1⟩

/-- `Reason::CANCEL` (wire code 8). -/
def Reason.CANCEL : Reason := ⟨8⟩

/-- `enum Peer { Local, Remote }` — which side a protocol fault is
attributed to.  `local` is a Lean keyword, hence the primed name. -/
inductive Peer
  | local'
  | remote
deriving DecidableEq, Repr

/-- `enum OpenPeer { AwaitingHeaders, Streaming }` — per-direction
sub-status while that direction is open. -/
inductive OpenPeer
  | awaitingHeaders
  | streaming
deriving DecidableEq, Repr

/-- `enum Cause { EndStream, Proto(Peer, Reason), Io, Canceled }` —
the terminal cause attached to a closed stream.  The `Io` variant is
named `ioErr` here. -/
inductive Cause
  | endStream
  | proto (p : Peer) (r : Reason)
  | ioErr
  | canceled
deriving DecidableEq, Repr

/-- `enum Inner { Idle, ReservedRemote, Open{..}, HalfClosedLocal(..),
HalfClosedRemote(..), Closed(..) }` — the six shapes of the stream state.
`open` is a Lean keyword, hence the primed constructor name.  The first
argument of `open'` is the `local` field, the second the `remote` field. -/
inductive Inner
  | idle
  | reservedRemote
  | open' (lo : OpenPeer) (re : OpenPeer)
  | halfClosedLocal (re : OpenPeer)
  | halfClosedRemote (lo : OpenPeer)
  | closed (c : Cause)
deriving DecidableEq, Repr

/-- The single variant of `codec::UserError` constructed by `state.rs`
(`UserError::UnexpectedFrameType`). -/
inductive UserError
  | unexpectedFrameType
deriving DecidableEq, Repr

/-- The single variant of `codec::RecvError` constructed by `state.rs`
(`RecvError::Connection(Reason)`). -/
inductive RecvError
  | connection (r : Reason)
deriving DecidableEq, Repr

/-- `proto::Error { Proto(Reason), Io(io::Error) }`.  The `io::Error`
payload (always `BrokenPipe` where `state.rs` builds one) carries no
information used by this file, so the variant is a bare `ioErr`. -/
inductive ProtoError
  | proto (r : Reason)
  | ioErr
deriving DecidableEq, Repr

/-- `State::send_open(&mut self, eos: bool) -> Result<(), UserError>`.
Returns the `Result` together with the state after the call. -/
def send_open (s : Inner) (eos : Bool) : Except UserError Unit × Inner :=
  match s with
  | .idle =>
      (.ok (), if eos then .halfClosedLocal .awaitingHeaders
               else .open' .streaming .awaitingHeaders)
  | .open' .awaitingHeaders re =>
      (.ok (), if eos then .halfClosedLocal re
               else .open' .streaming re)
  | .halfClosedRemote .awaitingHeaders =>
      (.ok (), if eos then .closed .endStream
               else .halfClosedRemote .streaming)
  | _ => (.error .unexpectedFrameType, s)

/-- `State::recv_open(&mut self, eos: bool) -> Result<bool, RecvError>`.
Returns the `Result` (carrying `initial`) with the state after the call. -/
def recv_open (s : Inner) (eos : Bool) : Except RecvError Bool × Inner :=
  match s with
  | .idle =>
      (.ok true, if eos then .halfClosedRemote .awaitingHeaders
                 else .open' .awaitingHeaders .streaming)
  | .reservedRemote =>
      (.ok true, if eos then .closed .endStream
                 else .open' .awaitingHeaders .streaming)
  | .open' lo .awaitingHeaders =>
      (.ok false, if eos then .halfClosedRemote lo
                  else .open' lo .streaming)
  | .halfClosedLocal .awaitingHeaders =>
      (.ok false, if eos then .closed .endStream
                  else .halfClosedLocal .streaming)
  | _ => (.error (.connection Reason.PROTOCOL_ERROR), s)

/-- `State::reserve_remote(&mut self) -> Result<(), RecvError>`. -/
def reserve_remote (s : Inner) : Except RecvError Unit × Inner :=
  match s with
  | .idle => (.ok (), .reservedRemote)
  | _ => (.error (.connection Reason.PROTOCOL_ERROR), s)

/-- `State::recv_close(&mut self) -> Result<(), RecvError>`. -/
def recv_close (s : Inner) : Except RecvError Unit × Inner :=
  match s with
  | .open' lo _ => (.ok (), .halfClosedRemote lo)
  | .halfClosedLocal _ => (.ok (), .closed .endStream)
  | _ => (.error (.connection Reason.PROTOCOL_ERROR), s)

/-- `State::recv_reset(&mut self, reason: Reason)` — infallible, returns
the state after the call. -/
def recv_reset (s : Inner) (reason : Reason) : Inner :=
  match s with
  | .closed _ => s
  | _ => .closed (.proto .remote reason)

/-- `State::recv_err(&mut self, err: &proto::Error)` — infallible. -/
def recv_err (s : Inner) (err : ProtoError) : Inner :=
  match s with
  | .closed _ => s
  | _ =>
      .closed (match err with
               | .proto reason => .proto .local' reason
               | .ioErr => .ioErr)

/-- `State::send_close(&mut self)` — `none` encodes the
`panic!("transition send_close on unexpected state")` branch. -/
def send_close (s : Inner) : Option Inner :=
  match s with
  | .open' _ re => some (.halfClosedLocal re)
  | .halfClosedRemote _ => some (.closed .endStream)
  | _ => none

/-- `State::set_reset(&mut self, reason: Reason)` — unconditional. -/
def set_reset (_s : Inner) (reason : Reason) : Inner :=
  .closed (.proto .local' reason)

/-- `State::set_canceled(&mut self)` — unconditional assignment; the
`debug_assert!(!self.is_closed())` is a caller precondition, not a
branch, so the embedded function is total. -/
def set_canceled (_s : Inner) : Inner :=
  .closed .canceled

/-- `State::is_canceled(&self) -> bool`. -/
def is_canceled (s : Inner) : Bool :=
  match s with
  | .closed .canceled => true
  | _ => false

/-- `State::is_local_reset(&self) -> bool`. -/
def is_local_reset (s : Inner) : Bool :=
  match s with
  | .closed (.proto .local' _) => true
  | .closed .canceled => true
  | _ => false

/-- `State::is_reset(&self) -> bool`. -/
def is_reset (s : Inner) : Bool :=
  match s with
  | .closed .endStream => false
  | .closed _ => true
  | _ => false

/-- `State::is_at_least_half_open(&self) -> bool`. -/
def is_at_least_half_open (s : Inner) : Bool :=
  match s with
  | .open' _ _ => true
  | .halfClosedLocal _ => true
  | .halfClosedRemote _ => true
  | _ => false

/-- `State::is_send_streaming(&self) -> bool`. -/
def is_send_streaming (s : Inner) : Bool :=
  match s with
  | .open' .streaming _ => true
  | .halfClosedRemote .streaming => true
  | _ => false

/-- `State::is_recv_headers(&self) -> bool`. -/
def is_recv_headers (s : Inner) : Bool :=
  match s with
  | .idle => true
  | .open' _ .awaitingHeaders => true
  | .halfClosedLocal .awaitingHeaders => true
  | .reservedRemote => true
  | _ => false

/-- `State::is_recv_streaming(&self) -> bool`. -/
def is_recv_streaming (s : Inner) : Bool :=
  match s with
  | .open' _ .streaming => true
  | .halfClosedLocal .streaming => true
  | _ => false

/-- `State::is_closed(&self) -> bool`. -/
def is_closed (s : Inner) : Bool :=
  match s with
  | .closed _ => true
  | _ => false

/-- `State::is_recv_closed(&self) -> bool`. -/
def is_recv_closed (s : Inner) : Bool :=
  match s with
  | .closed _ => true
  | .halfClosedRemote _ => true
  | _ => false

/-- `State::is_idle(&self) -> bool`. -/
def is_idle (s : Inner) : Bool :=
  match s with
  | .idle => true
  | _ => false

/-- `State::ensure_recv_open(&self) -> Result<bool, proto::Error>` —
takes `&self`, so it is a pure query with no state component. -/
def ensure_recv_open (s : Inner) : Except ProtoError Bool :=
  match s with
  | .closed (.proto _ reason) => .error (.proto reason)
  | .closed .canceled => .error (.proto Reason.CANCEL)
  | .closed .ioErr => .error .ioErr
  | .closed .endStream => .ok false
  | .halfClosedRemote _ => .ok false
  | _ => .ok true

/-- Reference definition for C2, transcribed from the spec's §4.2 table
(one row per listed shape, decided by `end_of_stream`; every other shape
is a connection-level protocol error with reason `PROTOCOL_ERROR`). -/
def recv_open_spec_table (s : Inner) (eos : Bool) : Except RecvError Bool × Inner :=
  match s with
  | .idle =>
      if eos then (.ok true, .halfClosedRemote .awaitingHeaders)
      else (.ok true, .open' .awaitingHeaders .streaming)
  | .reservedRemote =>
      if eos then (.ok true, .closed .endStream)
      else (.ok true, .open' .awaitingHeaders .streaming)
  | .open' lo .awaitingHeaders =>
      if eos then (.ok false, .halfClosedRemote lo)
      else (.ok false, .open' lo .streaming)
  | .halfClosedLocal .awaitingHeaders =>
      if eos then (.ok false, .closed .endStream)
      else (.ok false, .halfClosedLocal .streaming)
  | _ => (.error (.connection Reason.PROTOCOL_ERROR), s)

/-- Reference definition for C4, transcribed from the spec's description
of `ensure_recv_open`: the error carries the mapped cause when closed by
a fault, `false` when the receive side ended cleanly, `true` otherwise. -/
def ensure_recv_open_spec (s : Inner) : Except ProtoError Bool :=
  match s with
  | .closed c =>
      match c with
      | .proto _ reason => .error (.proto reason)
      | .canceled => .error (.proto Reason.CANCEL)
      | .ioErr => .error .ioErr
      | .endStream => .ok false
  | .halfClosedRemote _ => .ok false
  | _ => .ok true

/-- Claim C1 (counterexample): the claim is false as stated — `set_reset`
applied to an already-`Closed` state does not leave the recorded cause
unchanged; from `Closed(EndStream)` it overwrites the state. -/
theorem c1_set_reset_overwrites_closed_cause :
    set_reset (Inner.closed Cause.endStream) Reason.CANCEL ≠ Inner.closed Cause.endStream := by
  decide

/-- Claim C1 (amended): once `Closed(c)`, the event-driven operations
`recv_reset` and `recv_err` are no-ops preserving the cause `c`, but
`set_reset` unconditionally overwrites the state with
`Closed(Proto(Local, r))` and `set_canceled` unconditionally overwrites
it with `Closed(Canceled)` (its `debug_assert` precondition forbids
calling it on a closed state, and only that precondition protects the
cause). -/
theorem c1_closed_cause_amended (c : Cause) (r : Reason) (e : ProtoError) :
    recv_reset (Inner.closed c) r = Inner.closed c ∧
    recv_err (Inner.closed c) e = Inner.closed c ∧
    set_reset (Inner.closed c) r = Inner.closed (Cause.proto Peer.local' r) ∧
    set_canceled (Inner.closed c) = Inner.closed Cause.canceled :=
  ⟨rfl, rfl, rfl, rfl⟩

/-- Claim C2: `recv_open` implements exactly the §4.2 table — for every
starting state and every `end_of_stream` flag, its result and successor
state coincide with the table transcription `recv_open_spec_table`. -/
theorem c2_recv_open_matches_table (s : Inner) (eos : Bool) :
    recv_open s eos = recv_open_spec_table s eos := by
  cases s with
  | idle => cases eos <;> rfl
  | reservedRemote => cases eos <;> rfl
  | open' lo re => cases re <;> cases eos <;> rfl
  | halfClosedLocal re => cases re <;> cases eos <;> rfl
  | halfClosedRemote lo => cases eos <;> rfl
  | closed c => cases eos <;> rfl

/-- Claim C3 (counterexample): the claim is false as stated — after a
successful `send_open(true)` from `Idle` the state is
`HalfClosedLocal(AwaitingHeaders)`, on which `is_at_least_half_open`
returns `true`, not `false`. -/
theorem c3_half_open_counterexample :
    (send_open Inner.idle true).1 = Except.ok () ∧
    is_at_least_half_open (send_open Inner.idle true).2 ≠ false :=
  ⟨rfl, by decide⟩

/-- Claim C3 (amended): starting from `Idle`, `send_open(true)` succeeds
and the resulting state satisfies `is_at_least_half_open() == true` and
`is_recv_headers() == true` (the remote can still open). -/
theorem c3_send_open_true_from_idle :
    (send_open Inner.idle true).1 = Except.ok () ∧
    is_at_least_half_open (send_open Inner.idle true).2 = true ∧
    is_recv_headers (send_open Inner.idle true).2 = true :=
  ⟨rfl, rfl, rfl⟩

/-- Claim C4: for every state, `ensure_recv_open` coincides with the
spec transcription `ensure_recv_open_spec` — errors carrying the mapped
cause on `Closed(Proto(_, reason))` (reason unchanged), on
`Closed(Canceled)` and on `Closed(Io)`; `Ok(false)` on
`Closed(EndStream)` and `HalfClosedRemote`; `Ok(true)` otherwise.  It
takes the state read-only (the embedding returns no successor state),
so it never mutates. -/
theorem c4_ensure_recv_open_spec_eq (s : Inner) :
    ensure_recv_open s = ensure_recv_open_spec s := by
  cases s with
  | closed c => cases c <;> rfl
  | _ => rfl

/-- Claim C5: `recv_reset(r)` is a no-op on an already-closed state and
unconditionally moves every non-closed state to
`Closed(Proto(Remote, r))`; hence a second `recv_reset` never changes
the state produced by the first. -/
theorem c5_recv_reset_idempotent (s : Inner) (r r2 : Reason) :
    recv_reset s r =
      (if is_closed s then s else Inner.closed (Cause.proto Peer.remote r)) ∧
    recv_reset (recv_reset s r) r2 = recv_reset s r := by
  cases s <;> simp [recv_reset, is_closed]

/-- Claim C6: from every `Open(lo, re)` state, `send_close` then
`recv_close` reaches `Closed(EndStream)`, and `recv_close` then
`send_close` reaches the same terminal state; every intermediate call
succeeds (no panic, no error). -/
theorem c6_half_close_order_independent (lo re : OpenPeer) :
    send_close (Inner.open' lo re) = some (Inner.halfClosedLocal re) ∧
    recv_close (Inner.halfClosedLocal re) = (Except.ok (), Inner.closed Cause.endStream) ∧
    recv_close (Inner.open' lo re) = (Except.ok (), Inner.halfClosedRemote lo) ∧
    send_close (Inner.halfClosedRemote lo) = some (Inner.closed Cause.endStream) :=
  ⟨rfl, rfl, rfl, rfl⟩

/-- Claim C7: for every reason code `r` and every starting state, after
`set_reset(r)` the query `ensure_recv_open` fails with an error carrying
exactly `r`, and `is_local_reset` returns `true`. -/
theorem c7_set_reset_roundtrip (s : Inner) (r : Reason) :
    ensure_recv_open (set_reset s r) = Except.error (ProtoError.proto r) ∧
    is_local_reset (set_reset s r) = true :=
  ⟨rfl, rfl⟩

/-- Claim C8: `send_close` maps `Open(_, re)` to `HalfClosedLocal(re)`
and `HalfClosedRemote(_)` to `Closed(EndStream)` (so its panic branch,
embedded as `none`, is unreachable when the send side is open), and
panics on every other shape. -/
theorem c8_send_close_total_spec (lo re : OpenPeer) (c : Cause) :
    send_close (Inner.open' lo re) = some (Inner.halfClosedLocal re) ∧
    send_close (Inner.halfClosedRemote lo) = some (Inner.closed Cause.endStream) ∧
    send_close Inner.idle = none ∧
    send_close Inner.reservedRemote = none ∧
    send_close (Inner.halfClosedLocal re) = none ∧
    send_close (Inner.closed c) = none :=
  ⟨rfl, rfl, rfl, rfl, rfl, rfl⟩

/-- Claim C9: for every starting state and argument, each of
`send_open`, `recv_open`, `reserve_remote` and `recv_close` either
succeeds or leaves the state exactly as it was (rejection is atomic). -/
theorem c9_atomic_rejection (s : Inner) (eos : Bool) :
    ((send_open s eos).1.isOk = true ∨ (send_open s eos).2 = s) ∧
    ((recv_open s eos).1.isOk = true ∨ (recv_open s eos).2 = s) ∧
    ((reserve_remote s).1.isOk = true ∨ (reserve_remote s).2 = s) ∧
    ((recv_close s).1.isOk = true ∨ (recv_close s).2 = s) := by
  cases s with
  | idle =>
      cases eos <;>
        (refine ⟨?_, ?_, ?_, ?_⟩ <;> first | exact Or.inl rfl | exact Or.inr rfl)
  | reservedRemote =>
      cases eos <;>
        (refine ⟨?_, ?_, ?_, ?_⟩ <;> first | exact Or.inl rfl | exact Or.inr rfl)
  | open' lo re =>
      cases lo <;> cases re <;> cases eos <;>
        (refine ⟨?_, ?_, ?_, ?_⟩ <;> first | exact Or.inl rfl | exact Or.inr rfl)
  | halfClosedLocal re =>
      cases re <;> cases eos <;>
        (refine ⟨?_, ?_, ?_, ?_⟩ <;> first | exact Or.inl rfl | exact Or.inr rfl)
  | halfClosedRemote lo =>
      cases lo <;> cases eos <;>
        (refine ⟨?_, ?_, ?_, ?_⟩ <;> first | exact Or.inl rfl | exact Or.inr rfl)
  | closed c =>
      exact ⟨Or.inr rfl, Or.inr rfl, Or.inr rfl, Or.inr rfl⟩

/-- Claim C10: on every state exactly one of the receive-side queries
`is_recv_headers`, `is_recv_streaming`, `is_recv_closed` returns `true`
(their truth counts sum to one, so in particular no two of them hold
simultaneously). -/
theorem c10_recv_queries_partition (s : Inner) :
    (is_recv_headers s).toNat + (is_recv_streaming s).toNat
      + (is_recv_closed s).toNat = 1 := by
  cases s with
  | idle => rfl
  | reservedRemote => rfl
  | open' lo re => cases re <;> rfl
  | halfClosedLocal re => cases re <;> rfl
  | halfClosedRemote lo => rfl
  | closed c => rfl

end H2
